import Mathlib

/-!
Verification development for the ledgerclaw repository.

Shallow embedding of the classification engine (src/input/filter.ts),
the inference retry loop (llm-interface), and the pipeline orchestrator
(src/pipeline.ts + src/store/database.ts), with theorems settling the
frozen behavioural claims.

Strings are modelled as `List Char`; JavaScript `toLowerCase`,
`includes`, `startsWith`, `endsWith` and `substring` are modelled by
the corresponding list operations.  JavaScript numbers holding
timestamps are modelled as `Int`; the float confidence constants are
modelled as the rationals they denote.  SQLite tables are modelled as
Lean lists of rows; `INSERT OR REPLACE` replaces the row with the same
primary key.
-/

namespace LedgerClaw

/-- Character strings, as lists of characters. -/
abbrev Str := List Char

/-- JavaScript `s.toLowerCase()` (ASCII case mapping, as `Char.toLower`). -/
def lowerStr (s : Str) : Str := s.map Char.toLower

/-- JavaScript `hay.includes(needle)`: `needle` occurs as a contiguous
substring of `hay`. -/
def listIncludes : Str → Str → Bool
  | [], needle => needle.isPrefixOf ([] : Str)
  | c :: t, needle => needle.isPrefixOf (c :: t) || listIncludes t needle

/-- `String.includes` on Lean `String`s (used for error-message scanning). -/
def strIncludes (hay needle : String) : Bool := listIncludes hay.data needle.data

-- ─── src/input/filter.ts : pattern matching ─────────────────────────

/-- `matchesSenderPattern` (filter.ts lines 16-25): lower-case both
sides; a pattern starting with `*` is a suffix match on the rest of the
pattern, otherwise exact equality. -/
def matchesSenderPattern (address pattern : Str) : Bool :=
  let addr := lowerStr address
  let pat := lowerStr pattern
  if ['*'].isPrefixOf pat then
    List.isSuffixOf (pat.drop 1) addr
  else addr == pat

/-- `matchesSenderList` (filter.ts lines 27-29). -/
def matchesSenderList (address : Str) (patterns : List Str) : Bool :=
  patterns.any (fun p => matchesSenderPattern address p)

/-- `containsKeyword` (filter.ts lines 31-34). -/
def containsKeyword (text : Str) (keywords : List Str) : Bool :=
  let lower := lowerStr text
  keywords.any (fun kw => listIncludes lower (lowerStr kw))

/-- `countKeywordMatches` (filter.ts lines 36-39): the number of
entries of `keywords` occurring (case-insensitively) in `text`. -/
def countKeywordMatches (text : Str) (keywords : List Str) : Nat :=
  let lower := lowerStr text
  (keywords.filter (fun kw => listIncludes lower (lowerStr kw))).length

-- ─── src/input/filter.ts : category detection ───────────────────────

/-- Hints for one category (`DefaultRules["categories"]` entry). -/
structure CategoryHints where
  senderHints : List Str
  keywordHints : List Str
deriving DecidableEq

/-- `detectCategory` (filter.ts lines 43-58): first category whose
sender or keyword hints occur in the sender / subject; defaults to
`other_financial`. -/
def detectCategory (sender subject : Str) (categories : List (String × CategoryHints)) : String :=
  let senderLower := lowerStr sender
  let subjectLower := lowerStr subject
  match categories.find? (fun e =>
      e.2.senderHints.any (fun h => listIncludes senderLower (lowerStr h)) ||
      e.2.keywordHints.any (fun h => listIncludes subjectLower (lowerStr h))) with
  | some e => e.1
  | none => "other_financial"

-- ─── Rule sets (utils/config.ts shapes, as used by filter.ts) ───────

structure SenderRules where
  financial : List Str
  ignore : List Str
deriving DecidableEq

structure KeywordRules where
  subject : List Str
  body : List Str
deriving DecidableEq

structure DefaultRules where
  senders : SenderRules
  keywords : KeywordRules
  categories : List (String × CategoryHints)
deriving DecidableEq

structure UserSenderRules where
  financial : List Str
  ignore : List Str
  pending_review : List Str
deriving DecidableEq

structure UserRules where
  senders : UserSenderRules
  keywords : KeywordRules
deriving DecidableEq

/-- Merged financial-sender list (filter.ts lines 74-77). -/
def mergedFinancialSenders (d : DefaultRules) (u : Option UserRules) : List Str :=
  d.senders.financial ++ (match u with | some ur => ur.senders.financial | none => [])

/-- Merged ignore-sender list (filter.ts lines 78-81). -/
def mergedIgnoreSenders (d : DefaultRules) (u : Option UserRules) : List Str :=
  d.senders.ignore ++ (match u with | some ur => ur.senders.ignore | none => [])

/-- Merged subject-keyword list (filter.ts lines 82-85). -/
def mergedSubjectKeywords (d : DefaultRules) (u : Option UserRules) : List Str :=
  d.keywords.subject ++ (match u with | some ur => ur.keywords.subject | none => [])

/-- Merged body-keyword list (filter.ts lines 86-89). -/
def mergedBodyKeywords (d : DefaultRules) (u : Option UserRules) : List Str :=
  d.keywords.body ++ (match u with | some ur => ur.keywords.body | none => [])

-- ─── store/database.ts rows and the classifier's view of the store ──

/-- The columns of `emails` read by the classifier (database.ts
`EmailRow`, restricted to the fields `classifyEmails` uses). -/
structure EmailRow where
  id : Str
  sender : Str
  subject : Str
  body_text : Option Str
deriving DecidableEq

/-- A row of the `classifications` table (database.ts
`ClassificationRow`). -/
structure ClassificationRow where
  email_id : Str
  is_financial : Nat
  category : Option String
  confidence : ℚ
  classified_by : String
  classified_at : Int
deriving DecidableEq

/-- The part of the store the classifier touches. -/
structure FilterDb where
  emails : List EmailRow
  classifications : List ClassificationRow
deriving DecidableEq

/-- `db.getClassification` (database.ts lines 202-206). -/
def getClassification (emailId : Str) (db : FilterDb) : Option ClassificationRow :=
  db.classifications.find? (fun c => c.email_id == emailId)

/-- `db.insertClassification` (database.ts lines 172-179):
`INSERT OR REPLACE` keyed on `email_id`. -/
def insertClassification (c : ClassificationRow) (db : FilterDb) : FilterDb :=
  { db with classifications :=
      c :: db.classifications.filter (fun r => !(r.email_id == c.email_id)) }

/-- `db.getEmailsByIds` (database.ts lines 127-133).  `id` is the
primary key of `emails`, so for a singleton query the row order imposed
by `ORDER BY received_at` is immaterial. -/
def getEmailsByIds (ids : List Str) (db : FilterDb) : List EmailRow :=
  db.emails.filter (fun e => ids.any (fun i => i == e.id))

/-- `ClassifyResult` (filter.ts lines 62-67). -/
structure ClassifyResult where
  total : Nat
  financialCount : Nat
  financialEmailIds : List Str
  tokensUsed : Nat
deriving DecidableEq

/-- Whether the body-keyword check of filter.ts lines 162-181 fires:
`body_text` truthy (present and non-empty) and at least two keyword
matches against its first 1500 characters. -/
def bodyTierFires (d : DefaultRules) (u : Option UserRules) (e : EmailRow) : Bool :=
  match e.body_text with
  | some b => !b.isEmpty && countKeywordMatches (b.take 1500) (mergedBodyKeywords d u) ≥ 2
  | none => false

/-- One iteration of the `classifyEmails` loop (filter.ts lines
98-193) on a single email id. -/
def classifyStep (d : DefaultRules) (u : Option UserRules) (now : Int)
    (acc : ClassifyResult × FilterDb) (emailId : Str) : ClassifyResult × FilterDb :=
  let result := acc.1
  let db := acc.2
  match getClassification emailId db with
  | some existing =>
      -- already classified: count stored row, write nothing (lines 100-108)
      if existing.is_financial != 0 then
        ({ result with total := result.total + 1,
                       financialCount := result.financialCount + 1,
                       financialEmailIds := result.financialEmailIds ++ [emailId] }, db)
      else
        ({ result with total := result.total + 1 }, db)
  | none =>
    match getEmailsByIds [emailId] db with
    | [] => (result, db)        -- lines 110-111: no email row, silently skipped
    | email :: _ =>
      if matchesSenderList email.sender (mergedIgnoreSenders d u) then
        -- CHECK 1 (lines 114-126)
        ({ result with total := result.total + 1 },
         insertClassification
           { email_id := emailId, is_financial := 0, category := none,
             confidence := 1, classified_by := "rules_ignore", classified_at := now } db)
      else if matchesSenderList email.sender (mergedFinancialSenders d u) then
        -- CHECK 2 (lines 128-143)
        ({ result with total := result.total + 1,
                       financialCount := result.financialCount + 1,
                       financialEmailIds := result.financialEmailIds ++ [emailId] },
         insertClassification
           { email_id := emailId, is_financial := 1,
             category := some (detectCategory email.sender email.subject d.categories),
             confidence := 1, classified_by := "rules_sender", classified_at := now } db)
      else if containsKeyword email.subject (mergedSubjectKeywords d u) then
        -- CHECK 3 (lines 145-160)
        ({ result with total := result.total + 1,
                       financialCount := result.financialCount + 1,
                       financialEmailIds := result.financialEmailIds ++ [emailId] },
         insertClassification
           { email_id := emailId, is_financial := 1,
             category := some (detectCategory email.sender email.subject d.categories),
             confidence := mkRat 85 100, classified_by := "rules_keyword", classified_at := now } db)
      else if bodyTierFires d u email then
        -- CHECK 4 (lines 162-181)
        ({ result with total := result.total + 1,
                       financialCount := result.financialCount + 1,
                       financialEmailIds := result.financialEmailIds ++ [emailId] },
         insertClassification
           { email_id := emailId, is_financial := 1,
             category := some (detectCategory email.sender email.subject d.categories),
             confidence := mkRat 7 10, classified_by := "rules_keyword", classified_at := now } db)
      else
        -- NO MATCH (lines 183-192)
        ({ result with total := result.total + 1 },
         insertClassification
           { email_id := emailId, is_financial := 0, category := none,
             confidence := mkRat 8 10, classified_by := "rules_no_match", classified_at := now } db)

/-- `classifyEmails` (filter.ts lines 69-200): fold the loop body over
the id list starting from the zero result. -/
def classifyEmails (d : DefaultRules) (u : Option UserRules) (emailIds : List Str)
    (now : Int) (db : FilterDb) : ClassifyResult × FilterDb :=
  emailIds.foldl (classifyStep d u now)
    ({ total := 0, financialCount := 0, financialEmailIds := [], tokensUsed := 0 }, db)

-- ─── Organic filter building (filter.ts lines 204-353, 357-440) ────

/-- JavaScript `[...new Set(l)]`: keep the first occurrence of each
element, comparing by exact (case-sensitive) string equality. -/
def jsSetDedup (l : List Str) : List Str :=
  l.foldl (fun acc x => if x ∈ acc then acc else acc ++ [x]) []

/-- STEP 2 of `buildOrganicFilter` (filter.ts lines 223-232): the
senders already known financial under the default rules, in inbox
order, skipping senders on the default ignore list. -/
def buildKnownFinancial (allSenders : List Str) (d : DefaultRules) : List Str :=
  allSenders.foldl (fun acc s =>
    if matchesSenderList s d.senders.ignore then acc
    else if matchesSenderList s d.senders.financial then acc ++ [s]
    else acc) []

/-- The financial-sender list persisted by `buildOrganicFilter`
(filter.ts line 284): known financial senders plus the lower-cased
LLM-classified senders, deduplicated with a JavaScript `Set`.
`llmFinancialRaw` is the concatenation of the `financial` arrays parsed
from the per-batch LLM responses (line 271 lower-cases them). -/
def buildAllFinancialSenders (allSenders : List Str) (d : DefaultRules)
    (llmFinancialRaw : List Str) : List Str :=
  jsSetDedup (buildKnownFinancial allSenders d ++ llmFinancialRaw.map lowerStr)

/-- The financial-sender list persisted by `refreshFilter` (filter.ts
lines 424-435): the current list with the lower-cased newly discovered
senders appended, deduplicated with a JavaScript `Set`. -/
def refreshedFinancial (current : List Str) (parsedFinancial : List Str) : List Str :=
  jsSetDedup (current ++ parsedFinancial.map lowerStr)

-- ─── Inference gateway retry loop (llm-interface `callLLM`) ─────────

/-- `LLMResponse` (llm-interface). -/
structure LLMResponse where
  text : String
  tokensUsed : Nat
  model : String
deriving DecidableEq

/-- The markers scanned for by `isRetryable` (llm-interface lines
164-173): rate-limit / server-error status codes and abort (timeout). -/
def retryMarkers : List String := ["429", "500", "502", "503", "abort"]

/-- `isRetryable` (llm-interface lines 164-173). -/
def isRetryable (msg : String) : Bool := retryMarkers.any (fun m => strIncludes msg m)

def unreachableMsg : String := "Unreachable"

/-- The retry loop of `callLLM` (llm-interface lines 183-212).
`o attempt` is the outcome of the provider call on that attempt.  The
returned list records the back-off sleeps performed (`2 ^ attempt *
1000` milliseconds before retrying, line 206).  `fuel` is
`maxRetries + 1 - attempt`, the number of loop iterations left; the
fuel-exhausted branch mirrors the unreachable `throw` after the loop
(line 214). -/
def callLLMGo (o : Nat → Except String LLMResponse) (maxRetries : Nat) :
    Nat → Nat → Except String LLMResponse × List Nat
  | _, 0 => (Except.error unreachableMsg, [])
  | attempt, fuel + 1 =>
    match o attempt with
    | Except.ok r => (Except.ok r, [])
    | Except.error e =>
      if !isRetryable e || attempt == maxRetries then (Except.error e, [])
      else
        let p := callLLMGo o maxRetries (attempt + 1) fuel
        (p.1, 2 ^ attempt * 1000 :: p.2)

/-- `callLLM` (llm-interface lines 175-215): the result of the retry
loop started at attempt 0. -/
def callLLM (o : Nat → Except String LLMResponse) (maxRetries : Nat) :
    Except String LLMResponse :=
  (callLLMGo o maxRetries 0 (maxRetries + 1)).1

/-- The back-off sleeps performed by `callLLM`. -/
def callLLMDelays (o : Nat → Except String LLMResponse) (maxRetries : Nat) : List Nat :=
  (callLLMGo o maxRetries 0 (maxRetries + 1)).2

-- ─── Pipeline orchestrator (src/pipeline.ts, src/store/database.ts) ─

/-- A row of `pipeline_runs` (database.ts lines 59-73).  Status and
trigger are stored as the strings the code writes. -/
structure RunRecord where
  id : Nat
  started_at : Int
  finished_at : Option Int
  status : String
  trigger : String
  period_start : Option Int
  period_end : Option Int
  emails_fetched : Nat
  emails_classified : Nat
  emails_financial : Nat
  tokens_used : Nat
  briefing_id : Option Nat
  error : Option String
deriving DecidableEq

/-- A row of `briefings` (database.ts lines 32-44).  `delivered` is 0
(default), 1 (`markBriefingDelivered`) or -1 (`markBriefingFailed`). -/
structure Briefing where
  id : Nat
  generated_at : Int
  period_start : Int
  period_end : Int
  email_count : Nat
  content : String
  model_used : Option String
  tokens_used : Nat
  delivered : Int
  delivered_via : Option String
  delivered_at : Option Int
deriving DecidableEq

/-- The part of the store the orchestrator touches. -/
structure PipeDb where
  runs : List RunRecord
  briefings : List Briefing
deriving DecidableEq

/-- The next AUTOINCREMENT id for `pipeline_runs`: one more than the
largest id in the table. -/
def nextRunId (db : PipeDb) : Nat := (db.runs.foldl (fun m r => max m r.id) 0) + 1

/-- The next AUTOINCREMENT id for `briefings`. -/
def nextBriefingId (db : PipeDb) : Nat := (db.briefings.foldl (fun m b => max m b.id) 0) + 1

/-- `db.createPipelineRun` (database.ts lines 262-267): insert a fresh
`running` row and return its id. -/
def createPipelineRun (trigger : String) (t : Int) (db : PipeDb) : Nat × PipeDb :=
  let id := nextRunId db
  (id, { db with runs := db.runs ++ [{
      id := id, started_at := t, finished_at := none, status := "running",
      trigger := trigger, period_start := none, period_end := none,
      emails_fetched := 0, emails_classified := 0, emails_financial := 0,
      tokens_used := 0, briefing_id := none, error := none }] })

/-- `db.updatePipelineRun` (database.ts lines 269-275), with the
column updates of one call site expressed as a record update `f`. -/
def updateRun (db : PipeDb) (id : Nat) (f : RunRecord → RunRecord) : PipeDb :=
  { db with runs := db.runs.map (fun r => if r.id == id then f r else r) }

/-- Lookup of a `pipeline_runs` row by primary key. -/
def findRun (db : PipeDb) (id : Nat) : Option RunRecord :=
  db.runs.find? (fun r => r.id == id)

/-- Lookup of a `briefings` row by primary key. -/
def findBriefing (db : PipeDb) (id : Nat) : Option Briefing :=
  db.briefings.find? (fun b => b.id == id)

/-- Pick the run finishing later (`ORDER BY finished_at DESC`); a NULL
`finished_at` sorts below every value, and on ties the earlier row is
kept. -/
def laterFinished (a b : RunRecord) : RunRecord :=
  match b.finished_at, a.finished_at with
  | some tb, some ta => if tb > ta then b else a
  | some _, none => b
  | none, _ => a

/-- `db.getLastSuccessfulRun` (database.ts lines 277-281): the run
with the greatest `finished_at` among runs whose status is `success`
or `skipped`. -/
def getLastSuccessfulRun (db : PipeDb) : Option RunRecord :=
  (db.runs.filter (fun r => r.status == "success" || r.status == "skipped")).foldl
    (fun best r => match best with
      | none => some r
      | some b => some (laterFinished b r)) none

/-- JavaScript truthiness of an optional number (`lastRun?.period_end`,
`lastRun?.finished_at`): present and non-zero. -/
def jsTruthyInt : Option Int → Bool
  | some t => t != 0
  | none => false

/-- `markBriefingDelivered` (database.ts lines 228-232). -/
def markBriefingDelivered (id : Nat) (channel : String) (t : Int) (db : PipeDb) : PipeDb :=
  { db with briefings := db.briefings.map (fun b =>
      if b.id == id then { b with delivered := 1, delivered_via := some channel,
                                  delivered_at := some t } else b) }

/-- `markBriefingFailed` (database.ts lines 234-236): `delivered = -1`. -/
def markBriefingFailed (id : Nat) (db : PipeDb) : PipeDb :=
  { db with briefings := db.briefings.map (fun b =>
      if b.id == id then { b with delivered := -1 } else b) }

/-- The environment of one `runPipeline` invocation: configuration
values, clock readings, and the outcomes of the delegated stages
(Gmail fetch, filter refresh, classification, briefing generation,
delivery), each an `Except` mirroring a JavaScript throw.
`sameDayAsToday t` models `new Date(t).toDateString() === new
Date().toDateString()` (pipeline.ts lines 37-38). -/
structure StageEnv where
  now : Int
  tStart : Int
  tFinish : Int
  initialFetchDays : Nat
  deliveryChannel : String
  sameDayAsToday : Int → Bool
  fetch : Except String Nat
  refresh : Except String Nat
  classify : Except String (Nat × Nat)
  financialIds : List String
  generate : Except String (String × Nat)
  deliver : Except String Unit

/-- The period start computed at pipeline.ts lines 22-31: the previous
success/skipped run's `period_end` when truthy, else `now` minus the
initial-lookback window. -/
def computePeriodStart (env : StageEnv) (lastRun : Option RunRecord) : Int :=
  match lastRun with
  | some r =>
      if jsTruthyInt r.period_end then r.period_end.getD 0
      else env.now - (env.initialFetchDays : Int) * 86400000
  | none => env.now - (env.initialFetchDays : Int) * 86400000

/-- The duplicate-run suppression test of pipeline.ts lines 36-49:
last success/skipped run finished (truthy), on the same calendar day,
and the trigger is `scheduled`. -/
def duplicateRunSkip (env : StageEnv) (trigger : String) (lastRun : Option RunRecord) : Bool :=
  match lastRun with
  | some r =>
      jsTruthyInt r.finished_at && env.sameDayAsToday (r.finished_at.getD 0) &&
        (trigger == "scheduled")
  | none => false

def deliveryFailedLabel : String := "Delivery failed: "

-- The column updates `runPipeline` passes to `updatePipelineRun`, one
-- named function per call site.

/-- Update of the same-day skip branch (pipeline.ts lines 41-46). -/
def skipTodayUpd (now ps pe : Int) (r : RunRecord) : RunRecord :=
  { r with status := "skipped", finished_at := some now,
           period_start := some ps, period_end := some pe }

/-- Update of pipeline.ts line 56: record the period. -/
def setPeriodUpd (ps pe : Int) (r : RunRecord) : RunRecord :=
  { r with period_start := some ps, period_end := some pe }

/-- Update of pipeline.ts line 61: record the fetched count. -/
def setFetchedUpd (n : Nat) (r : RunRecord) : RunRecord := { r with emails_fetched := n }

/-- Update of pipeline.ts lines 72-75: record classification counts. -/
def setCountsUpd (ct cf : Nat) (r : RunRecord) : RunRecord :=
  { r with emails_classified := ct, emails_financial := cf }

/-- Update of pipeline.ts lines 82-86: skipped, no relevant mail. -/
def skipEmptyUpd (t : Int) (tokens : Nat) (r : RunRecord) : RunRecord :=
  { r with status := "skipped", finished_at := some t, tokens_used := tokens }

/-- Update of pipeline.ts lines 97-100: tokens and briefing id. -/
def setBriefingUpd (tokens : Nat) (bId : Nat) (r : RunRecord) : RunRecord :=
  { r with tokens_used := tokens, briefing_id := some bId }

/-- Update of pipeline.ts lines 122-126: successful finish. -/
def successUpd (t : Int) (tokens : Nat) (r : RunRecord) : RunRecord :=
  { r with status := "success", finished_at := some t, tokens_used := tokens }

/-- Update of pipeline.ts lines 112-117: delivery failed, run ends
`partial` with the delivery error recorded. -/
def deliveryFailUpd (t : Int) (tokens : Nat) (err : String) (r : RunRecord) : RunRecord :=
  { r with status := "partial", finished_at := some t, tokens_used := tokens,
           error := some err }

/-- The catch-all of pipeline.ts lines 129-137: mark the run `failed`
with the error message and the tokens accumulated so far. -/
def failUpd (t : Int) (tokens : Nat) (e : String) (r : RunRecord) : RunRecord :=
  { r with status := "failed", finished_at := some t, tokens_used := tokens,
           error := some e }

def failRun (db : PipeDb) (runId : Nat) (tokens : Nat) (e : String) (env : StageEnv) : PipeDb :=
  updateRun db runId (failUpd env.tFinish tokens e)

/-- `runPipeline` (pipeline.ts lines 9-139).  Returns the final store
and `Except.error e` when the run re-threw an error (lines 129-138),
`Except.ok ()` otherwise. -/
def runPipeline (env : StageEnv) (trigger : String) (db0 : PipeDb) :
    PipeDb × Except String Unit :=
  let created := createPipelineRun trigger env.tStart db0
  let runId := created.1
  let db := created.2
  let lastRun := getLastSuccessfulRun db
  let periodStart := computePeriodStart env lastRun
  let periodEnd := env.now
  if duplicateRunSkip env trigger lastRun then
    -- lines 39-48: skipped, finished_at := now (the period-computation clock)
    (updateRun db runId (skipTodayUpd env.now periodStart periodEnd), Except.ok ())
  else
    let db := updateRun db runId (setPeriodUpd periodStart periodEnd)
    match env.fetch with
    | Except.error e => (failRun db runId 0 e env, Except.error e)
    | Except.ok fetched =>
      let db := updateRun db runId (setFetchedUpd fetched)
      match env.refresh with
      | Except.error e => (failRun db runId 0 e env, Except.error e)
      | Except.ok refreshTokens =>
        match env.classify with
        | Except.error e => (failRun db runId refreshTokens e env, Except.error e)
        | Except.ok counts =>
          let db := updateRun db runId (setCountsUpd counts.1 counts.2)
          if env.financialIds.isEmpty then
            (updateRun db runId (skipEmptyUpd env.tFinish refreshTokens), Except.ok ())
          else
            match env.generate with
            | Except.error e => (failRun db runId refreshTokens e env, Except.error e)
            | Except.ok gen =>
              let totalTokens := refreshTokens + gen.2
              let bId := nextBriefingId db
              -- intelligence `generateBriefing` persists the digest itself
              let newBriefing : Briefing :=
                { id := bId, generated_at := env.tFinish, period_start := periodStart,
                  period_end := periodEnd, email_count := env.financialIds.length,
                  content := gen.1, model_used := none, tokens_used := gen.2,
                  delivered := 0, delivered_via := none, delivered_at := none }
              let db := { db with briefings := db.briefings ++ [newBriefing] }
              let db := updateRun db runId (setBriefingUpd totalTokens bId)
              match env.deliver with
              | Except.ok _ =>
                let db := markBriefingDelivered bId env.deliveryChannel env.tFinish db
                (updateRun db runId (successUpd env.tFinish totalTokens), Except.ok ())
              | Except.error e =>
                let db := markBriefingFailed bId db
                (updateRun db runId
                   (deliveryFailUpd env.tFinish totalTokens (deliveryFailedLabel ++ e)),
                 Except.ok ())

-- ─── Derived views of the classifier used in the theorems ───────────

/-- The classification row the tier cascade of filter.ts lines 114-192
writes for an unclassified email `e`: the five checks in source order,
first match deciding. -/
def decisionRow (d : DefaultRules) (u : Option UserRules) (emailId : Str) (e : EmailRow)
    (now : Int) : ClassificationRow :=
  if matchesSenderList e.sender (mergedIgnoreSenders d u) then
    { email_id := emailId, is_financial := 0, category := none,
      confidence := 1, classified_by := "rules_ignore", classified_at := now }
  else if matchesSenderList e.sender (mergedFinancialSenders d u) then
    { email_id := emailId, is_financial := 1,
      category := some (detectCategory e.sender e.subject d.categories),
      confidence := 1, classified_by := "rules_sender", classified_at := now }
  else if containsKeyword e.subject (mergedSubjectKeywords d u) then
    { email_id := emailId, is_financial := 1,
      category := some (detectCategory e.sender e.subject d.categories),
      confidence := mkRat 85 100, classified_by := "rules_keyword", classified_at := now }
  else if bodyTierFires d u e then
    { email_id := emailId, is_financial := 1,
      category := some (detectCategory e.sender e.subject d.categories),
      confidence := mkRat 7 10, classified_by := "rules_keyword", classified_at := now }
  else
    { email_id := emailId, is_financial := 0, category := none,
      confidence := mkRat 8 10, classified_by := "rules_no_match", classified_at := now }

/-- Modelled from the spec's words (claim C5: "case-insensitive
substring matches of distinct keywords"): the number of *distinct*
keywords (up to case) of `keywords` occurring in `text`; to be compared
with `countKeywordMatches`, which the source uses. -/
def specDistinctKeywordHits (text : Str) (keywords : List Str) : Nat :=
  (((keywords.map lowerStr).dedup).filter (fun kw => listIncludes (lowerStr text) kw)).length

-- ─── Concrete instances used by counterexamples and witnesses ───────

/-- Rules whose merged body-keyword list contains the same keyword
twice (one default copy and one user-grown copy of `pay`). -/
def dupKeywordDefaults : DefaultRules :=
  { senders := { financial := [], ignore := [] },
    keywords := { subject := [], body := ["pay".data] },
    categories := [] }

def dupKeywordUser : UserRules :=
  { senders := { financial := [], ignore := [], pending_review := [] },
    keywords := { subject := [], body := ["pay".data] } }

def dupKeywordEmail : EmailRow :=
  { id := "m5".data, sender := "someone@example.com".data, subject := "hello".data,
    body_text := some ("please pay now".data) }

def dupKeywordDb : FilterDb := { emails := [dupKeywordEmail], classifications := [] }

/-- Rules with one subject keyword and two body keywords, no sender
rules and no categories. -/
def keywordOnlyDefaults : DefaultRules :=
  { senders := { financial := [], ignore := [] },
    keywords := { subject := ["statement".data],
                  body := ["payment".data, "balance".data] },
    categories := [] }

def subjectHitEmail : EmailRow :=
  { id := "mA".data, sender := "x@foo.example".data,
    subject := "Your STATEMENT is ready".data, body_text := none }

def bodyHitEmail : EmailRow :=
  { id := "mB".data, sender := "y@foo.example".data, subject := "howdy".data,
    body_text := some ("payment of the balance is due".data) }

def subjectHitDb : FilterDb := { emails := [subjectHitEmail], classifications := [] }

def bodyHitDb : FilterDb := { emails := [bodyHitEmail], classifications := [] }

/-- Rules for the C1 witness: ignore and financial both match the
sender of `bothMatchEmail`. -/
def bothMatchDefaults : DefaultRules :=
  { senders := { financial := ["*@bank.example".data], ignore := ["promo@bank.example".data] },
    keywords := { subject := [], body := [] },
    categories := [] }

def bothMatchEmail : EmailRow :=
  { id := "m1".data, sender := "Promo@Bank.Example".data,
    subject := "offer".data, body_text := none }

def bothMatchDb : FilterDb := { emails := [bothMatchEmail], classifications := [] }

/-- A stored classification row for the C7 witness. -/
def storedRow : ClassificationRow :=
  { email_id := "m7".data, is_financial := 1, category := some "banking",
    confidence := mkRat 85 100, classified_by := "rules_keyword", classified_at := 5 }

def storedDb : FilterDb :=
  { emails := [{ id := "m7".data, sender := "z@foo.example".data,
                 subject := "hi".data, body_text := none }],
    classifications := [storedRow] }

/-- An empty filter store for the C10 witness. -/
def emptyFilterDb : FilterDb := { emails := [], classifications := [] }

/-- Default rules whose financial wildcard matches two stored senders
differing only in case (C9 counterexample). -/
def wildcardDefaults : DefaultRules :=
  { senders := { financial := ["*@b.example".data], ignore := [] },
    keywords := { subject := [], body := [] }, categories := [] }

-- LLM retry instances

def okResp : LLMResponse := { text := "done", tokensUsed := 5, model := "m" }

def err503 : String := "Ollama returned 503: busy"

def errLast : String := "OpenAI returned 502: bad gateway"

def err401 : String := "Anthropic returned 401: bad key"

/-- Three retryable failures, then success. -/
def threeFailThenOk (n : Nat) : Except String LLMResponse :=
  if n < 3 then Except.error err503 else Except.ok okResp

/-- Retryable failures for ever, with a distinguished message on
attempt 2. -/
def alwaysFail (n : Nat) : Except String LLMResponse :=
  Except.error (if n == 2 then errLast else err503)

/-- Non-retryable failure on the first attempt. -/
def authFail (_ : Nat) : Except String LLMResponse := Except.error err401

-- Pipeline instances

def manualTrigger : String := "manual"

/-- A store holding a finished successful run (period end 100) and a
later skipped run (period end 200): the C2 counterexample. -/
def successThenSkippedDb : PipeDb :=
  { runs := [
      { id := 1, started_at := 50, finished_at := some 100, status := "success",
        trigger := "scheduled", period_start := some 0, period_end := some 100,
        emails_fetched := 0, emails_classified := 0, emails_financial := 0,
        tokens_used := 0, briefing_id := none, error := none },
      { id := 2, started_at := 150, finished_at := some 200, status := "skipped",
        trigger := "scheduled", period_start := some 100, period_end := some 200,
        emails_fetched := 0, emails_classified := 0, emails_financial := 0,
        tokens_used := 0, briefing_id := none, error := none }],
    briefings := [] }

/-- Stage environment for the C2 counterexample run at time 300 (the
stage outcomes past the window computation are irrelevant there). -/
def windowEnv : StageEnv :=
  { now := 300, tStart := 299, tFinish := 301, initialFetchDays := 7,
    deliveryChannel := "whatsapp", sameDayAsToday := fun _ => false,
    fetch := Except.ok 0, refresh := Except.ok 0, classify := Except.ok (0, 0),
    financialIds := [], generate := Except.ok ("", 0), deliver := Except.ok () }

def emptyPipeDb : PipeDb := { runs := [], briefings := [] }

def deliveryErr : String := "connection closed"

/-- Stage environment in which every stage succeeds except delivery:
the C3 witness. -/
def deliveryFailEnv : StageEnv :=
  { now := 1000, tStart := 999, tFinish := 1001, initialFetchDays := 7,
    deliveryChannel := "whatsapp", sameDayAsToday := fun _ => false,
    fetch := Except.ok 4, refresh := Except.ok 3, classify := Except.ok (4, 2),
    financialIds := ["a"], generate := Except.ok ("digest text", 10),
    deliver := Except.error deliveryErr }

-- ─── Char.toLower facts used for the case-insensitivity claims ──────

lemma charToNat_ofNat_valid (n : Nat) (h : n.isValidChar) : (Char.ofNat n).toNat = n := by
  simp [Char.ofNat, Char.ofNatAux, Char.toNat, dif_pos h, UInt32.toNat, BitVec.toNat_ofNatLt]

lemma star_toNat : ('*').toNat = 42 := rfl

lemma toLower_eq_star_iff (c : Char) : Char.toLower c = '*' ↔ c = '*' := by
  unfold Char.toLower
  by_cases h : c.toNat ≥ 65 ∧ c.toNat ≤ 90
  · rw [if_pos h]
    constructor
    · intro he
      have h2 : (Char.ofNat (c.toNat + 32)).toNat = c.toNat + 32 :=
        charToNat_ofNat_valid _ (Or.inl (by omega))
      rw [he] at h2
      rw [star_toNat] at h2
      omega
    · intro he
      subst he
      rw [star_toNat] at h
      omega
  · rw [if_neg h]

-- ─── Classifier helper lemmas ───────────────────────────────────────

lemma getClassification_insertClassification (c : ClassificationRow) (db : FilterDb) :
    getClassification c.email_id (insertClassification c db) = some c := by
  simp [getClassification, insertClassification]

lemma classifyEmails_singleton (d : DefaultRules) (u : Option UserRules) (i : Str)
    (now : Int) (db : FilterDb) :
    classifyEmails d u [i] now db =
      classifyStep d u now
        ({ total := 0, financialCount := 0, financialEmailIds := [], tokensUsed := 0 }, db) i := by
  simp [classifyEmails]

lemma classifyStep_unclassified
    (d : DefaultRules) (u : Option UserRules) (now : Int) (res : ClassifyResult)
    (db : FilterDb) (emailId : Str) (e : EmailRow) (rest : List EmailRow)
    (hc : getClassification emailId db = none)
    (he : getEmailsByIds [emailId] db = e :: rest) :
    classifyStep d u now (res, db) emailId =
      (if (decisionRow d u emailId e now).is_financial != 0 then
         { res with total := res.total + 1, financialCount := res.financialCount + 1,
                    financialEmailIds := res.financialEmailIds ++ [emailId] }
       else { res with total := res.total + 1 },
       insertClassification (decisionRow d u emailId e now) db) := by
  unfold classifyStep decisionRow
  simp only [hc, he]
  by_cases h1 : matchesSenderList e.sender (mergedIgnoreSenders d u) <;>
    by_cases h2 : matchesSenderList e.sender (mergedFinancialSenders d u) <;>
      by_cases h3 : containsKeyword e.subject (mergedSubjectKeywords d u) <;>
        by_cases h4 : bodyTierFires d u e <;>
          simp [h1, h2, h3, h4]

-- ─── C1: ignore tier always wins ────────────────────────────────────

/-- Claim C1: the classifier evaluates the five tiers in fixed order
with the first match deciding; whenever the sender matches an
ignore-sender pattern — in particular even when it also matches a
relevant-sender pattern — the message is classified not-relevant with
confidence 1.0 (tag `rules_ignore`), and contributes no relevant
count. -/
theorem ignore_tier_always_wins
    (d : DefaultRules) (u : Option UserRules) (db : FilterDb) (emailId : Str)
    (e : EmailRow) (rest : List EmailRow) (now : Int)
    (hc : getClassification emailId db = none)
    (he : getEmailsByIds [emailId] db = e :: rest)
    (hig : matchesSenderList e.sender (mergedIgnoreSenders d u) = true) :
    getClassification emailId (classifyEmails d u [emailId] now db).2 =
      some { email_id := emailId, is_financial := 0, category := none,
             confidence := 1, classified_by := "rules_ignore", classified_at := now } ∧
    (classifyEmails d u [emailId] now db).1.financialCount = 0 ∧
    (classifyEmails d u [emailId] now db).1.total = 1 := by
  have hstep := classifyStep_unclassified d u now
    { total := 0, financialCount := 0, financialEmailIds := [], tokensUsed := 0 }
    db emailId e rest hc he
  have hrow : decisionRow d u emailId e now =
      { email_id := emailId, is_financial := 0, category := none,
        confidence := 1, classified_by := "rules_ignore", classified_at := now } := by
    unfold decisionRow
    rw [if_pos hig]
  refine ⟨?_, ?_, ?_⟩ <;>
    rw [classifyEmails_singleton, hstep, hrow] <;>
      simp [getClassification_insertClassification
        { email_id := emailId, is_financial := 0, category := none,
          confidence := 1, classified_by := "rules_ignore", classified_at := now } db]

/-- Witness for C1 at a sender matching both the ignore pattern and
the financial wildcard of `bothMatchDefaults`. -/
theorem ignore_tier_always_wins_witness :
    matchesSenderList bothMatchEmail.sender
      (mergedFinancialSenders bothMatchDefaults none) = true ∧
    getClassification ("m1".data)
        (classifyEmails bothMatchDefaults none ["m1".data] 3 bothMatchDb).2 =
      some { email_id := "m1".data, is_financial := 0, category := none,
             confidence := 1, classified_by := "rules_ignore", classified_at := 3 } :=
  ⟨by decide,
   (ignore_tier_always_wins bothMatchDefaults none bothMatchDb ("m1".data)
      bothMatchEmail [] 3 (by decide) (by decide) (by decide)).1⟩

-- ─── C5: body-keyword tier threshold ────────────────────────────────

/-- Counterexample for C5: the merged body-keyword list
`["pay", "pay"]` (one default entry, one user entry) gives exactly one
*distinct* keyword hit on the body `please pay now`, yet
`countKeywordMatches` counts 2 and the body tier fires (relevant,
confidence 0.7) instead of the no-match tier the claim requires. -/
theorem bodyTier_distinct_hits_counterexample :
    specDistinctKeywordHits (("please pay now".data).take 1500)
      (mergedBodyKeywords dupKeywordDefaults (some dupKeywordUser)) = 1 ∧
    countKeywordMatches (("please pay now".data).take 1500)
      (mergedBodyKeywords dupKeywordDefaults (some dupKeywordUser)) = 2 ∧
    getClassification ("m5".data)
        (classifyEmails dupKeywordDefaults (some dupKeywordUser) ["m5".data] 7 dupKeywordDb).2 =
      some { email_id := "m5".data, is_financial := 1, category := some "other_financial",
             confidence := mkRat 7 10, classified_by := "rules_keyword",
             classified_at := 7 } := by
  decide

/-- Claim C5 (amended): for a message reaching the body-keyword tier,
hits are counted per *entry* of the merged keyword list (a keyword
occurring in both the default and the user list is counted once per
entry); exactly 1 entry hit yields the no-match tier (not relevant,
0.80) and 2 or more entry hits yield the body tier (relevant, 0.70),
counted against the first 1500 characters of the body. -/
theorem bodyTier_entry_count_threshold
    (d : DefaultRules) (u : Option UserRules) (db : FilterDb) (emailId : Str)
    (e : EmailRow) (rest : List EmailRow) (b : Str) (now : Int)
    (hc : getClassification emailId db = none)
    (he : getEmailsByIds [emailId] db = e :: rest)
    (hig : matchesSenderList e.sender (mergedIgnoreSenders d u) = false)
    (hfin : matchesSenderList e.sender (mergedFinancialSenders d u) = false)
    (hsub : containsKeyword e.subject (mergedSubjectKeywords d u) = false)
    (hb : e.body_text = some b)
    (hbe : b.isEmpty = false) :
    (countKeywordMatches (b.take 1500) (mergedBodyKeywords d u) = 1 →
      getClassification emailId (classifyEmails d u [emailId] now db).2 =
        some { email_id := emailId, is_financial := 0, category := none,
               confidence := mkRat 8 10, classified_by := "rules_no_match",
               classified_at := now }) ∧
    (2 ≤ countKeywordMatches (b.take 1500) (mergedBodyKeywords d u) →
      getClassification emailId (classifyEmails d u [emailId] now db).2 =
        some { email_id := emailId, is_financial := 1,
               category := some (detectCategory e.sender e.subject d.categories),
               confidence := mkRat 7 10, classified_by := "rules_keyword",
               classified_at := now }) := by
  have hstep := classifyStep_unclassified d u now
    { total := 0, financialCount := 0, financialEmailIds := [], tokensUsed := 0 }
    db emailId e rest hc he
  have hfires : bodyTierFires d u e =
      decide (2 ≤ countKeywordMatches (b.take 1500) (mergedBodyKeywords d u)) := by
    unfold bodyTierFires
    rw [hb]
    simp [hbe, ge_iff_le]
  constructor
  · intro h1
    have hrow : decisionRow d u emailId e now =
        { email_id := emailId, is_financial := 0, category := none,
          confidence := mkRat 8 10, classified_by := "rules_no_match",
          classified_at := now } := by
      unfold decisionRow
      rw [if_neg (by simp [hig]), if_neg (by simp [hfin]), if_neg (by simp [hsub]),
          if_neg (by simp [hfires, h1])]
    rw [classifyEmails_singleton, hstep, hrow]
    simpa using getClassification_insertClassification
      { email_id := emailId, is_financial := 0, category := none,
        confidence := mkRat 8 10, classified_by := "rules_no_match",
        classified_at := now } db
  · intro h2
    have hrow : decisionRow d u emailId e now =
        { email_id := emailId, is_financial := 1,
          category := some (detectCategory e.sender e.subject d.categories),
          confidence := mkRat 7 10, classified_by := "rules_keyword",
          classified_at := now } := by
      unfold decisionRow
      rw [if_neg (by simp [hig]), if_neg (by simp [hfin]), if_neg (by simp [hsub]),
          if_pos (by simp [hfires, h2])]
    rw [classifyEmails_singleton, hstep, hrow]
    simpa using getClassification_insertClassification
      { email_id := emailId, is_financial := 1,
        category := some (detectCategory e.sender e.subject d.categories),
        confidence := mkRat 7 10, classified_by := "rules_keyword",
        classified_at := now } db

/-- Witness for the amended C5 at `bodyHitEmail`, whose body has two
keyword-entry hits. -/
theorem bodyTier_entry_count_threshold_witness :
    getClassification ("mB".data)
        (classifyEmails keywordOnlyDefaults none ["mB".data] 2 bodyHitDb).2 =
      some { email_id := "mB".data, is_financial := 1,
             category := some "other_financial",
             confidence := mkRat 7 10, classified_by := "rules_keyword",
             classified_at := 2 } := by
  have h := (bodyTier_entry_count_threshold keywordOnlyDefaults none bodyHitDb
    ("mB".data) bodyHitEmail [] ("payment of the balance is due".data) 2
    (by decide) (by decide) (by decide) (by decide) (by decide) (by decide)
    (by decide)).2 (by decide)
  simpa using h

-- ─── C6: decision tags per tier ─────────────────────────────────────

/-- Counterexample for C6: a subject-tier decision (confidence 0.85)
and a body-tier decision (confidence 0.7) carry the *same* decided-by
tag `rules_keyword`, so the subject and body tiers do not write
different tags. -/
theorem keyword_tier_tags_counterexample :
    (getClassification ("mA".data)
        (classifyEmails keywordOnlyDefaults none ["mA".data] 1 subjectHitDb).2).map
      (fun c => (c.classified_by, c.confidence)) = some ("rules_keyword", mkRat 85 100) ∧
    (getClassification ("mB".data)
        (classifyEmails keywordOnlyDefaults none ["mB".data] 2 bodyHitDb).2).map
      (fun c => (c.classified_by, c.confidence)) = some ("rules_keyword", mkRat 7 10) ∧
    (getClassification ("mA".data)
        (classifyEmails keywordOnlyDefaults none ["mA".data] 1 subjectHitDb).2).map
      (fun c => c.classified_by) =
    (getClassification ("mB".data)
        (classifyEmails keywordOnlyDefaults none ["mB".data] 2 bodyHitDb).2).map
      (fun c => c.classified_by) := by
  decide

/-- Claim C6 (amended): the decided-by tag written for a freshly
classified message is `rules_ignore` for tier 1, `rules_sender` for
tier 2, `rules_keyword` for tiers 3 *and* 4 (the subject- and
body-keyword tiers share one tag and are not distinguishable by it),
and `rules_no_match` for tier 5. -/
theorem classification_tag_by_tier
    (d : DefaultRules) (u : Option UserRules) (db : FilterDb) (emailId : Str)
    (e : EmailRow) (rest : List EmailRow) (now : Int)
    (hc : getClassification emailId db = none)
    (he : getEmailsByIds [emailId] db = e :: rest) :
    getClassification emailId (classifyEmails d u [emailId] now db).2 =
      some (decisionRow d u emailId e now) ∧
    (decisionRow d u emailId e now).classified_by =
      (if matchesSenderList e.sender (mergedIgnoreSenders d u) then "rules_ignore"
       else if matchesSenderList e.sender (mergedFinancialSenders d u) then "rules_sender"
       else if containsKeyword e.subject (mergedSubjectKeywords d u) then "rules_keyword"
       else if bodyTierFires d u e then "rules_keyword"
       else "rules_no_match") := by
  have hstep := classifyStep_unclassified d u now
    { total := 0, financialCount := 0, financialEmailIds := [], tokensUsed := 0 }
    db emailId e rest hc he
  constructor
  · rw [classifyEmails_singleton, hstep]
    have := getClassification_insertClassification (decisionRow d u emailId e now) db
    have hid : (decisionRow d u emailId e now).email_id = emailId := by
      unfold decisionRow
      by_cases h1 : matchesSenderList e.sender (mergedIgnoreSenders d u) <;>
        by_cases h2 : matchesSenderList e.sender (mergedFinancialSenders d u) <;>
          by_cases h3 : containsKeyword e.subject (mergedSubjectKeywords d u) <;>
            by_cases h4 : bodyTierFires d u e <;>
              simp [h1, h2, h3, h4]
    rw [hid] at this
    simpa using this
  · unfold decisionRow
    by_cases h1 : matchesSenderList e.sender (mergedIgnoreSenders d u) <;>
      by_cases h2 : matchesSenderList e.sender (mergedFinancialSenders d u) <;>
        by_cases h3 : containsKeyword e.subject (mergedSubjectKeywords d u) <;>
          by_cases h4 : bodyTierFires d u e <;>
            simp [h1, h2, h3, h4]

/-- Witness for the amended C6 at `subjectHitEmail` (tier 3). -/
theorem classification_tag_by_tier_witness :
    getClassification ("mA".data)
        (classifyEmails keywordOnlyDefaults none ["mA".data] 1 subjectHitDb).2 =
      some (decisionRow keywordOnlyDefaults none ("mA".data) subjectHitEmail 1) :=
  (classification_tag_by_tier keywordOnlyDefaults none subjectHitDb ("mA".data)
    subjectHitEmail [] 1 (by decide) (by decide)).1

-- ─── C7: idempotence on replay ──────────────────────────────────────

/-- Claim C7: re-running the classifier on an already-classified
message leaves the store completely unchanged (no new classification
is written, the stored row keeps its relevance, category, confidence
and tag), while the stored relevance is still counted in the returned
totals. -/
theorem classifier_idempotent_on_replay
    (d : DefaultRules) (u : Option UserRules) (db : FilterDb) (emailId : Str)
    (c : ClassificationRow) (now : Int)
    (hc : getClassification emailId db = some c) :
    (classifyEmails d u [emailId] now db).2 = db ∧
    getClassification emailId (classifyEmails d u [emailId] now db).2 = some c ∧
    (classifyEmails d u [emailId] now db).1.total = 1 ∧
    (classifyEmails d u [emailId] now db).1.financialCount =
      (if c.is_financial != 0 then 1 else 0) := by
  rw [classifyEmails_singleton]
  unfold classifyStep
  dsimp only
  rw [hc]
  by_cases h : c.is_financial != 0 <;> simp [h, hc]

/-- Witness for C7 at the stored row of `storedDb`. -/
theorem classifier_idempotent_on_replay_witness :
    (classifyEmails keywordOnlyDefaults none ["m7".data] 9 storedDb).2 = storedDb ∧
    getClassification ("m7".data)
      (classifyEmails keywordOnlyDefaults none ["m7".data] 9 storedDb).2 = some storedRow := by
  have h := classifier_idempotent_on_replay keywordOnlyDefaults none storedDb
    ("m7".data) storedRow 9 (by decide)
  exact ⟨h.1, h.2.1⟩

-- ─── C10: ids without an email row are silently skipped ─────────────

/-- Claim C10: an id in the input list for which no email row exists
(and hence, by the foreign-key constraint on `classifications`, no
stored classification either) is silently skipped: nothing is written
and it is not counted, so the returned total can be strictly less than
the input length. -/
theorem missing_email_silently_skipped
    (d : DefaultRules) (u : Option UserRules) (db : FilterDb) (emailId : Str) (now : Int)
    (hc : getClassification emailId db = none)
    (he : getEmailsByIds [emailId] db = []) :
    classifyEmails d u [emailId] now db =
      ({ total := 0, financialCount := 0, financialEmailIds := [], tokensUsed := 0 }, db) ∧
    (classifyEmails d u [emailId] now db).1.total < ([emailId] : List Str).length := by
  have hmain : classifyEmails d u [emailId] now db =
      ({ total := 0, financialCount := 0, financialEmailIds := [], tokensUsed := 0 }, db) := by
    rw [classifyEmails_singleton]
    unfold classifyStep
    dsimp only
    rw [hc, he]
  refine ⟨hmain, ?_⟩
  rw [hmain]
  simp

/-- Witness for C10: an unknown id against the empty store. -/
theorem missing_email_silently_skipped_witness :
    classifyEmails keywordOnlyDefaults none ["ghost".data] 4 emptyFilterDb =
      ({ total := 0, financialCount := 0, financialEmailIds := [], tokensUsed := 0 },
       emptyFilterDb) :=
  (missing_email_silently_skipped keywordOnlyDefaults none emptyFilterDb
    ("ghost".data) 4 (by decide) (by decide)).1

-- ─── C8: sender pattern semantics ───────────────────────────────────

/-- Claim C8: sender matching is case-insensitive (it depends only on
the lower-cased address and pattern); a wildcard pattern is only a
leading `*` suffix match — `*@bank.example` matches
`alerts@bank.example` and `Alerts@Bank.Example` but neither the bare
domain `bank.example` nor `x@notbank.example` — and a pattern without
a leading `*` matches exactly the addresses equal to it ignoring
case. -/
theorem sender_pattern_semantics :
    matchesSenderPattern ("alerts@bank.example".data) ("*@bank.example".data) = true ∧
    matchesSenderPattern ("Alerts@Bank.Example".data) ("*@bank.example".data) = true ∧
    matchesSenderPattern ("bank.example".data) ("*@bank.example".data) = false ∧
    matchesSenderPattern ("x@notbank.example".data) ("*@bank.example".data) = false ∧
    (∀ a a' p p' : Str, lowerStr a = lowerStr a' → lowerStr p = lowerStr p' →
       matchesSenderPattern a p = matchesSenderPattern a' p') ∧
    (∀ a p : Str, p.head? ≠ some '*' →
       (matchesSenderPattern a p = true ↔ lowerStr a = lowerStr p)) := by
  refine ⟨by decide, by decide, by decide, by decide, ?_, ?_⟩
  · intro a a' p p' ha hp
    simp only [matchesSenderPattern, ha, hp]
  · intro a p hp
    have hstar : ['*'].isPrefixOf (lowerStr p) = false := by
      cases p with
      | nil => rfl
      | cons c t =>
        have hc : c ≠ '*' := by
          intro hcc
          exact hp (by rw [hcc]; rfl)
        have hne : Char.toLower c ≠ '*' := fun hl => hc ((toLower_eq_star_iff c).mp hl)
        have hne' : ¬('*' = Char.toLower c) := fun h => hne h.symm
        simp [lowerStr, List.isPrefixOf, hne']
    simp only [matchesSenderPattern, hstar]
    simp

/-- Witness for C8: the non-wildcard branch at a concrete pair of
addresses differing only in case. -/
theorem sender_pattern_semantics_witness :
    matchesSenderPattern ("Alice@Bank.Example".data) ("alice@bank.example".data) = true :=
  (sender_pattern_semantics.2.2.2.2.2 ("Alice@Bank.Example".data)
    ("alice@bank.example".data) (by decide)).mpr (by decide)

-- ─── C9: deduplication of the persisted financial-sender list ───────

lemma foldl_dedup_nodup (l : List Str) :
    ∀ acc : List Str, acc.Nodup →
      (l.foldl (fun acc x => if x ∈ acc then acc else acc ++ [x]) acc).Nodup := by
  induction l with
  | nil => intro acc h; simpa using h
  | cons x t ih =>
    intro acc h
    by_cases hx : x ∈ acc
    · simpa [hx] using ih acc h
    · have : (acc ++ [x]).Nodup := by
        simp [List.nodup_append, h, hx]
      simpa [hx] using ih (acc ++ [x]) this

lemma jsSetDedup_nodup (l : List Str) : (jsSetDedup l).Nodup :=
  foldl_dedup_nodup l [] (by simp)

/-- Counterexample for C9: two stored senders differing only in case
both match the default financial wildcard and both survive the
JavaScript `Set` deduplication, so the persisted relevant-sender list
contains two entries that are equal ignoring case; the same happens on
refresh when a lower-cased discovery duplicates a stored entry's
case-variant. -/
theorem financial_dedup_counterexample :
    buildAllFinancialSenders ["A@b.example".data, "a@b.example".data] wildcardDefaults [] =
      ["A@b.example".data, "a@b.example".data] ∧
    lowerStr ("A@b.example".data) = lowerStr ("a@b.example".data) ∧
    ("A@b.example".data) ≠ ("a@b.example".data) ∧
    refreshedFinancial ["A@b.example".data] ["a@B.example".data] =
      ["A@b.example".data, "a@b.example".data] := by
  decide

/-- Claim C9 (amended): after an organic filter build and after a
periodic refresh the persisted relevant-sender list is deduplicated by
*exact* string equality (a JavaScript `Set`), so it contains no two
identical entries; entries that are equal only ignoring case may both
persist. -/
theorem financial_senders_nodup (allSenders : List Str) (d : DefaultRules)
    (llm : List Str) (current parsed : List Str) :
    (buildAllFinancialSenders allSenders d llm).Nodup ∧
    (refreshedFinancial current parsed).Nodup :=
  ⟨jsSetDedup_nodup _, jsSetDedup_nodup _⟩

/-- Witness for the amended C9 at the counterexample's inputs. -/
theorem financial_senders_nodup_witness :
    (buildAllFinancialSenders ["A@b.example".data, "a@b.example".data]
      wildcardDefaults []).Nodup :=
  (financial_senders_nodup ["A@b.example".data, "a@b.example".data]
    wildcardDefaults [] [] []).1

-- ─── C4: inference-gateway retry policy ─────────────────────────────

lemma callLLMGo_ok (o : Nat → Except String LLMResponse) (cap k : Nat) (r : LLMResponse)
    (hfail : ∀ i, i < k → ∃ e, o i = Except.error e ∧ isRetryable e = true)
    (hok : o k = Except.ok r) (hk : k ≤ cap) :
    ∀ fuel attempt, attempt + fuel = cap + 1 → attempt ≤ k →
      callLLMGo o cap attempt fuel =
        (Except.ok r, (List.range' attempt (k - attempt)).map (fun i => 2 ^ i * 1000)) := by
  intro fuel
  induction fuel with
  | zero => intro attempt hsum hak; omega
  | succ n ih =>
    intro attempt hsum hak
    by_cases heq : attempt = k
    · subst heq
      simp [callLLMGo, hok]
    · have hlt : attempt < k := lt_of_le_of_ne hak heq
      obtain ⟨e, he, hre⟩ := hfail attempt hlt
      have hac : attempt ≠ cap := Nat.ne_of_lt (lt_of_lt_of_le hlt hk)
      have hrec := ih (attempt + 1) (by omega) (by omega)
      have hrange : List.range' attempt (k - attempt) =
          attempt :: List.range' (attempt + 1) (k - (attempt + 1)) := by
        have h1 : k - attempt = (k - (attempt + 1)) + 1 := by omega
        rw [h1, List.range'_succ]
      simp [callLLMGo, he, hre, hac, hrec, hrange]

lemma callLLMGo_exhaust (o : Nat → Except String LLMResponse) (cap : Nat) (e : String)
    (hfail : ∀ i, i < cap → ∃ ei, o i = Except.error ei ∧ isRetryable ei = true)
    (hlast : o cap = Except.error e) :
    ∀ fuel attempt, attempt + fuel = cap + 1 → attempt ≤ cap →
      (callLLMGo o cap attempt fuel).1 = Except.error e := by
  intro fuel
  induction fuel with
  | zero => intro attempt hsum hak; omega
  | succ n ih =>
    intro attempt hsum hak
    by_cases heq : attempt = cap
    · subst heq
      simp [callLLMGo, hlast]
    · have hlt : attempt < cap := lt_of_le_of_ne hak heq
      obtain ⟨ei, he, hre⟩ := hfail attempt hlt
      have hrec := ih (attempt + 1) (by omega) (by omega)
      simp [callLLMGo, he, hre, heq, hrec]

/-- Claim C4: a retryable inference failure is retried with
exponentially doubling back-off (2^attempt seconds in milliseconds)
until the attempt cap, the final attempt's failure propagating
unchanged; a non-retryable failure propagates immediately with no
retry and no sleep; concretely, 3 retryable failures followed by a
success return the success whenever the cap is at least 4, and a cap
of 2 with 3 failures propagates the final error. -/
theorem inference_retry_policy :
    (∀ (o : Nat → Except String LLMResponse) (cap k : Nat) (r : LLMResponse),
       (∀ i, i < k → ∃ e, o i = Except.error e ∧ isRetryable e = true) →
       o k = Except.ok r → k ≤ cap →
       callLLM o cap = Except.ok r ∧
       callLLMDelays o cap = (List.range k).map (fun i => 2 ^ i * 1000)) ∧
    (∀ (o : Nat → Except String LLMResponse) (cap : Nat) (e : String),
       (∀ i, i < cap → ∃ ei, o i = Except.error ei ∧ isRetryable ei = true) →
       o cap = Except.error e → callLLM o cap = Except.error e) ∧
    (∀ (o : Nat → Except String LLMResponse) (cap : Nat) (e : String),
       o 0 = Except.error e → isRetryable e = false →
       callLLM o cap = Except.error e ∧ callLLMDelays o cap = []) ∧
    (∀ cap, 4 ≤ cap → callLLM threeFailThenOk cap = Except.ok okResp ∧
       callLLMDelays threeFailThenOk cap = [1000, 2000, 4000]) ∧
    callLLM alwaysFail 2 = Except.error errLast := by
  have hok : ∀ (o : Nat → Except String LLMResponse) (cap k : Nat) (r : LLMResponse),
      (∀ i, i < k → ∃ e, o i = Except.error e ∧ isRetryable e = true) →
      o k = Except.ok r → k ≤ cap →
      callLLM o cap = Except.ok r ∧
      callLLMDelays o cap = (List.range k).map (fun i => 2 ^ i * 1000) := by
    intro o cap k r hfail hk hkc
    have h := callLLMGo_ok o cap k r hfail hk hkc (cap + 1) 0 (by omega) (by omega)
    constructor
    · rw [callLLM, h]
    · rw [callLLMDelays, h]
      simp [List.range_eq_range']
  have hex : ∀ (o : Nat → Except String LLMResponse) (cap : Nat) (e : String),
      (∀ i, i < cap → ∃ ei, o i = Except.error ei ∧ isRetryable ei = true) →
      o cap = Except.error e → callLLM o cap = Except.error e := by
    intro o cap e hfail hlast
    exact callLLMGo_exhaust o cap e hfail hlast (cap + 1) 0 (by omega) (by omega)
  refine ⟨hok, hex, ?_, ?_, ?_⟩
  · intro o cap e h0 hnr
    constructor
    · rw [callLLM, callLLMGo]
      simp [h0, hnr]
    · rw [callLLMDelays, callLLMGo]
      simp [h0, hnr]
  · intro cap hcap
    refine hok threeFailThenOk cap 3 okResp ?_ rfl (by omega)
    intro i hi
    refine ⟨err503, ?_, by decide⟩
    simp [threeFailThenOk, hi]
  · refine hex alwaysFail 2 errLast ?_ rfl
    intro i hi
    interval_cases i
    · exact ⟨err503, rfl, by decide⟩
    · exact ⟨err503, rfl, by decide⟩

/-- Witness for C4: the concrete cap-4 run of three retryable failures
followed by a success. -/
theorem inference_retry_policy_witness :
    callLLM threeFailThenOk 4 = Except.ok okResp ∧
    callLLMDelays threeFailThenOk 4 = [1000, 2000, 4000] :=
  inference_retry_policy.2.2.2.1 4 (by omega)

-- ─── Pipeline helper lemmas ─────────────────────────────────────────

lemma foldl_max_mono (l : List RunRecord) : ∀ acc : Nat,
    acc ≤ l.foldl (fun m r => max m r.id) acc := by
  induction l with
  | nil => intro acc; simp
  | cons a t ih =>
    intro acc
    exact le_trans (le_max_left acc a.id) (ih (max acc a.id))

lemma foldl_max_ge_mem (l : List RunRecord) : ∀ (acc : Nat) (r : RunRecord), r ∈ l →
    r.id ≤ l.foldl (fun m x => max m x.id) acc := by
  induction l with
  | nil => intro acc r h; cases h
  | cons a t ih =>
    intro acc r h
    rcases List.mem_cons.mp h with h1 | h2
    · subst h1
      exact le_trans (le_max_right acc r.id) (foldl_max_mono t (max acc r.id))
    · exact ih (max acc a.id) r h2

lemma mem_id_lt_nextRunId (db : PipeDb) (r : RunRecord) (h : r ∈ db.runs) :
    r.id < nextRunId db := by
  have := foldl_max_ge_mem db.runs 0 r h
  unfold nextRunId
  omega

lemma find?_id_append_new (runs : List RunRecord) (new : RunRecord) (n : Nat)
    (hall : ∀ r ∈ runs, r.id ≠ n) (hnew : new.id = n) :
    (runs ++ [new]).find? (fun r => r.id == n) = some new := by
  induction runs with
  | nil => simp [List.find?, hnew]
  | cons a t ih =>
    have ha : (a.id == n) = false := beq_eq_false_iff_ne.mpr (hall a (by simp))
    simp only [List.cons_append, List.find?, ha]
    exact ih (fun r hr => hall r (by simp [hr]))

lemma findRun_createPipelineRun (trigger : String) (t : Int) (db : PipeDb) :
    findRun (createPipelineRun trigger t db).2 (nextRunId db) =
      some { id := nextRunId db, started_at := t, finished_at := none, status := "running",
             trigger := trigger, period_start := none, period_end := none,
             emails_fetched := 0, emails_classified := 0, emails_financial := 0,
             tokens_used := 0, briefing_id := none, error := none } := by
  unfold findRun createPipelineRun
  exact find?_id_append_new db.runs _ (nextRunId db)
    (fun r hr => Nat.ne_of_lt (mem_id_lt_nextRunId db r hr)) rfl

lemma find?_map_update_run (runs : List RunRecord) (n : Nat) (f : RunRecord → RunRecord)
    (hf : ∀ r, (f r).id = r.id) :
    (runs.map (fun r => if r.id == n then f r else r)).find? (fun r => r.id == n) =
      (runs.find? (fun r => r.id == n)).map f := by
  induction runs with
  | nil => simp
  | cons a t ih =>
    by_cases h : a.id = n
    · have hb : (a.id == n) = true := beq_iff_eq.mpr h
      have hfb : ((f a).id == n) = true := beq_iff_eq.mpr (by rw [hf a]; exact h)
      simp [List.find?, hb, hfb]
    · have hb : (a.id == n) = false := beq_eq_false_iff_ne.mpr h
      rw [List.map_cons]
      rw [show (if (a.id == n) = true then f a else a) = a from by simp [hb]]
      rw [List.find?_cons_of_neg _ (by simp [h]), List.find?_cons_of_neg _ (by simp [h])]
      exact ih

lemma findRun_updateRun (db : PipeDb) (n : Nat) (f : RunRecord → RunRecord)
    (hf : ∀ r, (f r).id = r.id) :
    findRun (updateRun db n f) n = (findRun db n).map f :=
  find?_map_update_run db.runs n f hf

lemma findRun_markBriefingDelivered (i : Nat) (ch : String) (t : Int) (db : PipeDb) (n : Nat) :
    findRun (markBriefingDelivered i ch t db) n = findRun db n := rfl

lemma findRun_markBriefingFailed (i : Nat) (db : PipeDb) (n : Nat) :
    findRun (markBriefingFailed i db) n = findRun db n := rfl

lemma findRun_failRun (db : PipeDb) (runId : Nat) (tokens : Nat) (e : String)
    (env : StageEnv) :
    findRun (failRun db runId tokens e env) runId =
      (findRun db runId).map (failUpd env.tFinish tokens e) :=
  findRun_updateRun db runId _ (fun _ => rfl)

lemma findRun_upd_skipToday (db : PipeDb) (n : Nat) (now ps pe : Int) :
    findRun (updateRun db n (skipTodayUpd now ps pe)) n =
      (findRun db n).map (skipTodayUpd now ps pe) :=
  findRun_updateRun _ _ _ (fun _ => rfl)

lemma findRun_upd_setPeriod (db : PipeDb) (n : Nat) (ps pe : Int) :
    findRun (updateRun db n (setPeriodUpd ps pe)) n =
      (findRun db n).map (setPeriodUpd ps pe) :=
  findRun_updateRun _ _ _ (fun _ => rfl)

lemma findRun_upd_setFetched (db : PipeDb) (n m : Nat) :
    findRun (updateRun db n (setFetchedUpd m)) n =
      (findRun db n).map (setFetchedUpd m) :=
  findRun_updateRun _ _ _ (fun _ => rfl)

lemma findRun_upd_setCounts (db : PipeDb) (n ct cf : Nat) :
    findRun (updateRun db n (setCountsUpd ct cf)) n =
      (findRun db n).map (setCountsUpd ct cf) :=
  findRun_updateRun _ _ _ (fun _ => rfl)

lemma findRun_upd_skipEmpty (db : PipeDb) (n : Nat) (t : Int) (tokens : Nat) :
    findRun (updateRun db n (skipEmptyUpd t tokens)) n =
      (findRun db n).map (skipEmptyUpd t tokens) :=
  findRun_updateRun _ _ _ (fun _ => rfl)

lemma findRun_upd_setBriefing (db : PipeDb) (n : Nat) (tokens bId : Nat) :
    findRun (updateRun db n (setBriefingUpd tokens bId)) n =
      (findRun db n).map (setBriefingUpd tokens bId) :=
  findRun_updateRun _ _ _ (fun _ => rfl)

lemma findRun_upd_success (db : PipeDb) (n : Nat) (t : Int) (tokens : Nat) :
    findRun (updateRun db n (successUpd t tokens)) n =
      (findRun db n).map (successUpd t tokens) :=
  findRun_updateRun _ _ _ (fun _ => rfl)

lemma findRun_upd_deliveryFail (db : PipeDb) (n : Nat) (t : Int) (tokens : Nat) (err : String) :
    findRun (updateRun db n (deliveryFailUpd t tokens err)) n =
      (findRun db n).map (deliveryFailUpd t tokens err) :=
  findRun_updateRun _ _ _ (fun _ => rfl)

lemma getLastSuccessfulRun_create (trigger : String) (t : Int) (db : PipeDb) :
    getLastSuccessfulRun (createPipelineRun trigger t db).2 = getLastSuccessfulRun db := by
  unfold getLastSuccessfulRun createPipelineRun
  simp

-- briefing-table analogues

lemma foldl_max_mono_briefing (l : List Briefing) : ∀ acc : Nat,
    acc ≤ l.foldl (fun m b => max m b.id) acc := by
  induction l with
  | nil => intro acc; simp
  | cons a t ih =>
    intro acc
    exact le_trans (le_max_left acc a.id) (ih (max acc a.id))

lemma foldl_max_ge_mem_briefing (l : List Briefing) : ∀ (acc : Nat) (b : Briefing), b ∈ l →
    b.id ≤ l.foldl (fun m x => max m x.id) acc := by
  induction l with
  | nil => intro acc b h; cases h
  | cons a t ih =>
    intro acc b h
    rcases List.mem_cons.mp h with h1 | h2
    · subst h1
      exact le_trans (le_max_right acc b.id) (foldl_max_mono_briefing t (max acc b.id))
    · exact ih (max acc a.id) b h2

lemma mem_id_lt_nextBriefingId (db : PipeDb) (b : Briefing) (h : b ∈ db.briefings) :
    b.id < nextBriefingId db := by
  have := foldl_max_ge_mem_briefing db.briefings 0 b h
  unfold nextBriefingId
  omega

lemma find?_id_append_new_briefing (bs : List Briefing) (new : Briefing) (n : Nat)
    (hall : ∀ b ∈ bs, b.id ≠ n) (hnew : new.id = n) :
    (bs ++ [new]).find? (fun b => b.id == n) = some new := by
  induction bs with
  | nil => simp [List.find?, hnew]
  | cons a t ih =>
    have ha : (a.id == n) = false := beq_eq_false_iff_ne.mpr (hall a (by simp))
    simp only [List.cons_append, List.find?, ha]
    exact ih (fun b hb => hall b (by simp [hb]))

lemma find?_map_update_briefing (bs : List Briefing) (n : Nat) (f : Briefing → Briefing)
    (hf : ∀ b, (f b).id = b.id) :
    (bs.map (fun b => if b.id == n then f b else b)).find? (fun b => b.id == n) =
      (bs.find? (fun b => b.id == n)).map f := by
  induction bs with
  | nil => simp
  | cons a t ih =>
    by_cases h : a.id = n
    · have hb : (a.id == n) = true := beq_iff_eq.mpr h
      have hfb : ((f a).id == n) = true := beq_iff_eq.mpr (by rw [hf a]; exact h)
      simp [List.find?, hb, hfb]
    · have hb : (a.id == n) = false := beq_eq_false_iff_ne.mpr h
      rw [List.map_cons]
      rw [show (if (a.id == n) = true then f a else a) = a from by simp [hb]]
      rw [List.find?_cons_of_neg _ (by simp [h]), List.find?_cons_of_neg _ (by simp [h])]
      exact ih

lemma findRun_setBriefings (db : PipeDb) (bs : List Briefing) (n : Nat) :
    findRun { db with briefings := bs } n = findRun db n := rfl

lemma createPipelineRun_fst (trigger : String) (t : Int) (db : PipeDb) :
    (createPipelineRun trigger t db).1 = nextRunId db := rfl

-- ─── C2: pipeline window computation ────────────────────────────────

/-- Counterexample for C2: the store holds a successful run with
period end 100 and a later *skipped* run with period end 200; the next
run's period start is 200 (the skipped run's period end), not the 100
the claim requires from the prior successful run. -/
theorem pipeline_window_counterexample :
    (successThenSkippedDb.runs.map (fun r => (r.status, r.period_end))) =
      [("success", some 100), ("skipped", some 200)] ∧
    (findRun (runPipeline windowEnv manualTrigger successThenSkippedDb).1 3).map
      (fun r => r.period_start) = some (some 200) ∧
    (200 : Int) ≠ 100 := by
  decide

/-- Claim C2 (amended): every run records period end = now, and period
start = the period end of the most recent run whose status is
`success` *or* `skipped` (by finish time, when that period end is set
and non-zero); when no such run exists, period start = now minus the
configured initial-lookback window. -/
theorem pipeline_window_characterization (env : StageEnv) (trigger : String) (db : PipeDb) :
    (∃ r', findRun (runPipeline env trigger db).1 (nextRunId db) = some r' ∧
       r'.period_start = some (computePeriodStart env (getLastSuccessfulRun db)) ∧
       r'.period_end = some env.now) ∧
    (∀ r T, getLastSuccessfulRun db = some r → r.period_end = some T → T ≠ 0 →
       computePeriodStart env (getLastSuccessfulRun db) = T) ∧
    (getLastSuccessfulRun db = none →
       computePeriodStart env (getLastSuccessfulRun db) =
         env.now - (env.initialFetchDays : Int) * 86400000) := by
  refine ⟨?_, ?_, ?_⟩
  · unfold runPipeline
    try dsimp only
    rw [getLastSuccessfulRun_create]
    by_cases hskip : duplicateRunSkip env trigger (getLastSuccessfulRun db) = true
    · rw [if_pos hskip]
      simp only [createPipelineRun_fst, findRun_upd_skipToday, findRun_createPipelineRun,
        Option.map_some']
      exact ⟨_, rfl, rfl, rfl⟩
    · rw [if_neg hskip]
      try dsimp only
      rcases hfetch : env.fetch with e | nf <;> try dsimp only
      · simp only [createPipelineRun_fst, findRun_failRun, findRun_upd_setPeriod,
          findRun_createPipelineRun, Option.map_some']
        exact ⟨_, rfl, rfl, rfl⟩
      · rcases hrefresh : env.refresh with e | rt <;> try dsimp only
        · simp only [createPipelineRun_fst, findRun_failRun, findRun_upd_setFetched, findRun_upd_setPeriod,
            findRun_createPipelineRun, Option.map_some']
          exact ⟨_, rfl, rfl, rfl⟩
        · rcases hclassify : env.classify with e | counts <;> try dsimp only
          · simp only [createPipelineRun_fst, findRun_failRun, findRun_upd_setFetched, findRun_upd_setPeriod,
              findRun_createPipelineRun, Option.map_some']
            exact ⟨_, rfl, rfl, rfl⟩
          · by_cases hfin : env.financialIds.isEmpty = true
            · rw [if_pos hfin]
              simp only [createPipelineRun_fst, findRun_upd_skipEmpty, findRun_upd_setCounts,
                findRun_upd_setFetched, findRun_upd_setPeriod,
                findRun_createPipelineRun, Option.map_some']
              exact ⟨_, rfl, rfl, rfl⟩
            · rw [if_neg hfin]
              rcases hgen : env.generate with e | gen <;> try dsimp only
              · simp only [createPipelineRun_fst, findRun_failRun, findRun_upd_setCounts,
                  findRun_upd_setFetched, findRun_upd_setPeriod,
                  findRun_createPipelineRun, Option.map_some']
                exact ⟨_, rfl, rfl, rfl⟩
              · rcases hdel : env.deliver with e | u0 <;> try dsimp only
                · simp only [createPipelineRun_fst, findRun_upd_deliveryFail,
                    findRun_markBriefingFailed, findRun_upd_setBriefing, findRun_setBriefings,
                    findRun_upd_setCounts, findRun_upd_setFetched, findRun_upd_setPeriod,
                    findRun_createPipelineRun, Option.map_some']
                  exact ⟨_, rfl, rfl, rfl⟩
                · simp only [createPipelineRun_fst, findRun_upd_success,
                    findRun_markBriefingDelivered, findRun_upd_setBriefing, findRun_setBriefings,
                    findRun_upd_setCounts, findRun_upd_setFetched, findRun_upd_setPeriod,
                    findRun_createPipelineRun, Option.map_some']
                  exact ⟨_, rfl, rfl, rfl⟩
  · intro r T h1 h2 h3
    rw [h1]
    unfold computePeriodStart
    simp [jsTruthyInt, h2, h3]
  · intro h
    rw [h]
    rfl

/-- Witness for the amended C2 at the concrete store of the
counterexample: the skipped run's period end 200 is the next period
start. -/
theorem pipeline_window_characterization_witness :
    computePeriodStart windowEnv (getLastSuccessfulRun successThenSkippedDb) = 200 :=
  (pipeline_window_characterization windowEnv manualTrigger successThenSkippedDb).2.1
    { id := 2, started_at := 150, finished_at := some 200, status := "skipped",
      trigger := "scheduled", period_start := some 100, period_end := some 200,
      emails_fetched := 0, emails_classified := 0, emails_financial := 0,
      tokens_used := 0, briefing_id := none, error := none }
    200 (by decide) (by decide) (by decide)

-- ─── C3: delivery failure yields a partial run ──────────────────────

lemma findBriefing_updateRun (db : PipeDb) (n : Nat) (f : RunRecord → RunRecord) (m : Nat) :
    findBriefing (updateRun db n f) m = findBriefing db m := rfl

lemma nextBriefingId_updateRun (db : PipeDb) (n : Nat) (f : RunRecord → RunRecord) :
    nextBriefingId (updateRun db n f) = nextBriefingId db := rfl

lemma nextBriefingId_create (trigger : String) (t : Int) (db : PipeDb) :
    nextBriefingId (createPipelineRun trigger t db).2 = nextBriefingId db := rfl

lemma findBriefing_markBriefingFailed_self (i : Nat) (db : PipeDb) :
    findBriefing (markBriefingFailed i db) i =
      (findBriefing db i).map (fun b => { b with delivered := -1 }) :=
  find?_map_update_briefing db.briefings i _ (fun _ => rfl)

lemma updateRun_briefings (db : PipeDb) (n : Nat) (f : RunRecord → RunRecord) :
    (updateRun db n f).briefings = db.briefings := rfl

lemma createPipelineRun_briefings (trigger : String) (t : Int) (db : PipeDb) :
    (createPipelineRun trigger t db).2.briefings = db.briefings := rfl

lemma findBriefing_mk_append (runs : List RunRecord) (bs : List Briefing) (new : Briefing)
    (n : Nat) (hall : ∀ b ∈ bs, b.id ≠ n) (hnew : new.id = n) :
    findBriefing { runs := runs, briefings := bs ++ [new] } n = some new :=
  find?_id_append_new_briefing bs new n hall hnew

/-- Claim C3: when digest generation succeeds and delivery then fails,
the run ends `partial` (never `failed`) with the delivery error
recorded on it, its token and classification counts preserved, and the
generated digest stays persisted, not marked delivered
(`delivered = -1`). -/
theorem delivery_failure_yields_partial
    (env : StageEnv) (trigger : String) (db : PipeDb)
    (nf rt : Nat) (counts : Nat × Nat) (gen : String × Nat) (e : String)
    (hskip : duplicateRunSkip env trigger (getLastSuccessfulRun db) = false)
    (hfetch : env.fetch = Except.ok nf)
    (hrefresh : env.refresh = Except.ok rt)
    (hclassify : env.classify = Except.ok counts)
    (hfin : env.financialIds.isEmpty = false)
    (hgen : env.generate = Except.ok gen)
    (hdel : env.deliver = Except.error e) :
    (runPipeline env trigger db).2 = Except.ok () ∧
    (∃ r', findRun (runPipeline env trigger db).1 (nextRunId db) = some r' ∧
       r'.status = "partial" ∧
       r'.error = some (deliveryFailedLabel ++ e) ∧
       r'.tokens_used = rt + gen.2 ∧
       r'.emails_classified = counts.1 ∧
       r'.emails_financial = counts.2 ∧
       r'.briefing_id = some (nextBriefingId db)) ∧
    (∃ b, findBriefing (runPipeline env trigger db).1 (nextBriefingId db) = some b ∧
       b.delivered = -1 ∧ b.content = gen.1 ∧ b.tokens_used = gen.2 ∧
       b.email_count = env.financialIds.length) := by
  unfold runPipeline
  try dsimp only
  rw [getLastSuccessfulRun_create]
  rw [if_neg (by simp [hskip])]
  try dsimp only
  rw [hfetch]
  try dsimp only
  rw [hrefresh]
  try dsimp only
  rw [hclassify]
  try dsimp only
  rw [if_neg (by simp [hfin])]
  rw [hgen]
  try dsimp only
  rw [hdel]
  try dsimp only
  refine ⟨rfl, ?_, ?_⟩
  · simp only [createPipelineRun_fst, nextBriefingId_updateRun, nextBriefingId_create,
      findRun_upd_deliveryFail, findRun_markBriefingFailed, findRun_upd_setBriefing,
      findRun_setBriefings, findRun_upd_setCounts, findRun_upd_setFetched,
      findRun_upd_setPeriod, findRun_createPipelineRun, Option.map_some']
    exact ⟨_, rfl, rfl, rfl, rfl, rfl, rfl, rfl⟩
  · simp only [createPipelineRun_fst, nextBriefingId_updateRun, nextBriefingId_create,
      findBriefing_updateRun, findBriefing_markBriefingFailed_self,
      updateRun_briefings, createPipelineRun_briefings]
    have happ : ∀ runs : List RunRecord,
        findBriefing
          { runs := runs,
            briefings := db.briefings ++
              [{ id := nextBriefingId db, generated_at := env.tFinish,
                 period_start := computePeriodStart env (getLastSuccessfulRun db),
                 period_end := env.now, email_count := env.financialIds.length,
                 content := gen.1, model_used := none, tokens_used := gen.2,
                 delivered := 0, delivered_via := none, delivered_at := none }] }
          (nextBriefingId db) =
        some { id := nextBriefingId db, generated_at := env.tFinish,
               period_start := computePeriodStart env (getLastSuccessfulRun db),
               period_end := env.now, email_count := env.financialIds.length,
               content := gen.1, model_used := none, tokens_used := gen.2,
               delivered := 0, delivered_via := none, delivered_at := none } := by
      intro runs
      exact findBriefing_mk_append runs db.briefings _ _
        (fun b hb => Nat.ne_of_lt (mem_id_lt_nextBriefingId db b hb)) rfl
    rw [happ]
    exact ⟨_, rfl, rfl, rfl, rfl, rfl⟩

/-- Witness for C3 at `deliveryFailEnv` over the empty store. -/
theorem delivery_failure_yields_partial_witness :
    (runPipeline deliveryFailEnv manualTrigger emptyPipeDb).2 = Except.ok () ∧
    (∃ r', findRun (runPipeline deliveryFailEnv manualTrigger emptyPipeDb).1 1 = some r' ∧
       r'.status = "partial" ∧
       r'.error = some (deliveryFailedLabel ++ deliveryErr) ∧
       r'.tokens_used = 13) := by
  have h := delivery_failure_yields_partial deliveryFailEnv manualTrigger emptyPipeDb
    4 3 (4, 2) ("digest text", 10) deliveryErr rfl rfl rfl rfl rfl rfl rfl
  obtain ⟨h1, ⟨r', hr, hs, herr, htok, _, _, _⟩, _⟩ := h
  exact ⟨h1, ⟨r', hr, hs, herr, htok⟩⟩

end LedgerClaw
